import Mathlib

/-!
Shallow embedding of `src/app.py` (Dristi-Saarathi, a Streamlit accessibility
page). External engines (the Tesseract OCR call, the gTTS synthesis call, the
Gemini generation call, the sidebar logo load) are modelled by an oracle
record `Env` whose fields give, for the one interaction being modelled, the
outcome each external call would have: `Except.ok` with the returned value, or
`Except.error` with the exception message the call raises. Synthesis has its
own three-way outcome, because `text_to_speech` creates its temp file between
its two fallible steps: the `gTTS` constructor can raise before the file
exists, while a failing `save` leaves the already-created file behind.

All UI output (st.error, st.warning, st.success, st.audio, ...) is recorded in
an event list; every adapter invocation is recorded in a call trace; temporary
audio files are modelled by an allocation counter and the list of files
existing on disk (fresh names from `tempfile.NamedTemporaryFile` are modelled
as allocation indices). Python functions become state transformers on `St`;
the only statements of the source that can raise past a function boundary
(the `raise FileNotFoundError` in `input_image_setup`, and the `open` on a
`None` audio path in the text-to-speech button branch) are reflected with
`Except`, carrying the state already rendered at the raise point, exactly as
Streamlit keeps the widgets already drawn when an exception is caught later.
-/

/-- One user-visible output primitive of the page, in emission order. -/
inductive UIEvent where
  | pageConfig (title : String)
  | markdown (s : String)
  | sidebarImage
  | sidebarWarning (msg : String)
  | sidebarTitle (s : String)
  | sidebarMarkdown (s : String)
  | sidebarWrite (s : String)
  | error (msg : String)
  | warning (msg : String)
  | success (msg : String)
  | spinner (msg : String)
  | image (caption : String)
  | write (s : Option String)
  | textArea (label : String) (content : String)
  | audio (path : Nat)
  | downloadButton (label : String) (path : Nat)
  | fileUploader (label : String)
  | button (label : String)
deriving DecidableEq, Repr

/-- Which external adapter was invoked: the OCR engine (`pytesseract.image_to_string`),
the generative model (`model.generate_content`), or the speech synthesiser (`gTTS`). -/
inductive AdapterCall where
  | ocr
  | gen
  | tts
deriving DecidableEq, Repr

/-- Python exceptions that cross a function boundary in this program. -/
inductive PyError where
  | fileNotFound (msg : String)
  | typeError (msg : String)
deriving DecidableEq, Repr

/-- Message text of an exception, as Python renders it in an f-string. -/
def pyMsg : PyError → String
  | PyError.fileNotFound m => m
  | PyError.typeError m => m

/-- Outcome of one synthesis attempt. The source has two distinct failure
points: `gTTS(text, lang="en")` can raise before any file exists (for
instance on empty text), while `tts.save(tmp_file.name)` makes the network
call only after `tempfile.NamedTemporaryFile(delete=False)` has already
created the file on disk, so a save failure leaves that file behind. -/
inductive TtsOutcome where
  | ok
  | ctorFail (e : String)
  | saveFail (e : String)
deriving DecidableEq, Repr

/-- Outcomes of the external calls for the interaction being modelled:
`ocr` is the result of `pytesseract.image_to_string` (text, or exception
message), `gen` is the result of `model.generate_content(...).text`,
`tts` is the outcome of the synthesis attempt (construction, temp-file
creation, save), and `logo` the outcome of `st.sidebar.image(logo_path)`. -/
structure Env where
  ocr : Except String String
  gen : Except String String
  tts : TtsOutcome
  logo : Except String Unit

/-- Page state: events rendered so far, the adapter-call trace, the fresh
temp-file allocator, and the temp files existing on disk. -/
structure St where
  events : List UIEvent
  calls : List AdapterCall
  nextTmp : Nat
  files : List Nat
deriving DecidableEq, Repr

/-- Render one UI event. -/
def emit (st : St) (e : UIEvent) : St :=
  St.mk (st.events ++ [e]) st.calls st.nextTmp st.files

/-- Record one adapter invocation in the trace. -/
def recordCall (st : St) (c : AdapterCall) : St :=
  St.mk st.events (st.calls ++ [c]) st.nextTmp st.files

/-- The empty page state, before anything is rendered. -/
def initSt : St := St.mk [] [] 0 []

/-- An uploaded file as the widget hands it over: name, lower-cased
extension, MIME type, raw bytes. -/
structure UploadedFile where
  name : String
  ext : String
  mime : String
  bytes : List Nat
deriving DecidableEq, Repr

/-- One entry of the `image_parts` list built for the Gemini call
(`{"mime_type": ..., "data": ...}`, app.py line 118). -/
structure ImagePart where
  mime_type : String
  data : List Nat
deriving DecidableEq, Repr

/-- `setup_page` (app.py lines 18-48): page config and title markup only. -/
def setup_page (st : St) : St :=
  emit (emit (emit st (UIEvent.pageConfig ("Dristi Saarathi")))
    (UIEvent.markdown ("main-title"))) (UIEvent.markdown ("subtitle"))

/-- `setup_sidebar` (app.py lines 50-79): logo with its own try/except,
then the About markup. -/
def setup_sidebar (env : Env) (st : St) : St :=
  let st1 :=
    match env.logo with
    | Except.ok _ => emit st UIEvent.sidebarImage
    | Except.error e => emit st (UIEvent.sidebarWarning ("Logo not found: " ++ e))
  emit (emit (emit st1 (UIEvent.sidebarTitle ("About App")))
    (UIEvent.sidebarMarkdown ("features"))) (UIEvent.sidebarWrite ("instructions"))

/-- `extract_text_from_image` (app.py lines 81-86): invoke the OCR engine;
on exception show `st.error` and return the empty string. -/
def extract_text_from_image (env : Env) (image : List Nat) (st : St) : String × St :=
  let st1 := recordCall st AdapterCall.ocr
  match env.ocr with
  | Except.ok t => (t, st1)
  | Except.error e => ("", emit st1 (UIEvent.error ("Text extraction error: " ++ e)))

/-- `text_to_speech` (app.py lines 88-97): construct the gTTS object, create a
fresh `NamedTemporaryFile(delete=False, suffix=".mp3")`, save into it and
return its path; on exception show `st.error` and return `None`. The fresh
file name is the current allocator index; the file is appended to the disk
list and nothing ever removes it. When the constructor raises no file was
created yet; when `save` raises the file had already been created and, with
`delete=False`, stays on disk. -/
def text_to_speech (env : Env) (text : String) (st : St) : Option Nat × St :=
  let st1 := recordCall st AdapterCall.tts
  match env.tts with
  | TtsOutcome.ok =>
      (some st1.nextTmp,
        St.mk st1.events st1.calls (st1.nextTmp + 1) (st1.files ++ [st1.nextTmp]))
  | TtsOutcome.ctorFail e =>
      (none, emit st1 (UIEvent.error ("Text-to-speech conversion error: " ++ e)))
  | TtsOutcome.saveFail e =>
      (none,
        emit (St.mk st1.events st1.calls (st1.nextTmp + 1) (st1.files ++ [st1.nextTmp]))
          (UIEvent.error ("Text-to-speech conversion error: " ++ e)))

/-- `generate_scene_description` (app.py lines 99-112): one synchronous model
call; on a non-empty response (Python `if output:`) synthesise audio for it
and return both, on an empty response return the sentinel text with no audio,
and on exception show `st.error` and return `(None, None)`. -/
def generate_scene_description (env : Env) (input_prompt : String)
    (image_data : List ImagePart) (st : St) : (Option String × Option Nat) × St :=
  let st1 := recordCall st AdapterCall.gen
  match env.gen with
  | Except.ok output =>
      if output ≠ "" then
        let r := text_to_speech env output st1
        ((some output, r.1), r.2)
      else
        ((some ("No description generated."), none), st1)
  | Except.error e =>
      ((none, none), emit st1 (UIEvent.error ("Scene description generation error: " ++ e)))

/-- `input_image_setup` (app.py lines 114-121): marshal the upload into the
one-element `image_parts` list, raising `FileNotFoundError` when no file was
uploaded. -/
def input_image_setup (uploaded_file : Option UploadedFile) :
    Except PyError (List ImagePart) :=
  match uploaded_file with
  | some f => Except.ok [ImagePart.mk f.mime f.bytes]
  | none => Except.error (PyError.fileNotFound ("No file uploaded."))

/-- The accepted upload types of the widget (app.py line 129). -/
def allowedTypes : List String := ["jpg", "jpeg", "png"]

/-- Models the `st.file_uploader(..., type=["jpg","jpeg","png"])` widget of
app.py line 129 (an external Streamlit component): a candidate file whose
extension is not among the accepted types is rejected by the widget itself,
so the page sees no uploaded file. -/
def file_uploader (types : List String) (candidate : Option UploadedFile) :
    Option UploadedFile :=
  match candidate with
  | some f => if f.ext ∈ types then some f else none
  | none => none

/-- Truthiness of Python `text.strip()` (app.py line 176): true exactly when
the text contains some non-whitespace character. -/
def strippedNonempty (s : String) : Bool :=
  s.toList.any (fun c => !c.isWhitespace)

/-- The fixed instruction prompt of app.py lines 142-148 (abridged text). -/
def scene_prompt : String :=
  "You are an AI assistant helping visually impaired individuals by describing the scene in the image."

/-- The `if scene_button:` block of `main` (app.py lines 153-165). -/
def sceneBranch (env : Env) (image_data : List ImagePart) (st : St) : St :=
  let st1 := emit st (UIEvent.spinner ("Generating scene description..."))
  let r := generate_scene_description env scene_prompt image_data st1
  let st2 := emit r.2 (UIEvent.markdown ("Scene Description"))
  let st3 := emit st2 (UIEvent.write r.1.1)
  match r.1.2 with
  | some p => emit (emit st3 (UIEvent.audio p)) (UIEvent.downloadButton ("Download Audio") p)
  | none => st3

/-- The `if ocr_button:` block of `main` (app.py lines 167-171). -/
def ocrBranch (env : Env) (image : List Nat) (st : St) : St :=
  let st1 := emit st (UIEvent.spinner ("Extracting text from the image..."))
  let r := extract_text_from_image env image st1
  emit (emit r.2 (UIEvent.markdown ("Extracted Text")))
    (UIEvent.textArea ("Extracted Text") r.1)

/-- The `if tts_button:` block of `main` (app.py lines 173-187): extract text;
when the stripped text is non-empty, synthesise speech and render the player
and download button (when synthesis failed and the path is `None`, the
`open(audio_path, "rb")` of line 182 raises past the block); otherwise show
the no-text warning and never call `text_to_speech`. -/
def ttsBranch (env : Env) (image : List Nat) (st : St) : Except (PyError × St) St :=
  let st1 := emit st (UIEvent.spinner ("Converting text to speech..."))
  let r := extract_text_from_image env image st1
  if strippedNonempty r.1 then
    let r2 := text_to_speech env r.1 r.2
    let st2 := emit r2.2 (UIEvent.success ("Conversion Completed!"))
    match r2.1 with
    | some p =>
        Except.ok (emit (emit st2 (UIEvent.audio p))
          (UIEvent.downloadButton ("Download Speech") p))
    | none =>
        Except.error (PyError.typeError
          ("expected str, bytes or os.PathLike object, not NoneType"), st2)
  else
    Except.ok (emit r.2 (UIEvent.warning ("No text found to convert.")))

/-- The state of the three feature buttons on the rendered page. -/
structure Buttons where
  scene : Bool
  ocr : Bool
  tts : Bool
deriving DecidableEq, Repr

/-- The `try:` body of `main` (app.py lines 150-187): marshal the upload, then
run the pressed feature blocks in order. -/
def tryBody (env : Env) (f : UploadedFile) (btns : Buttons) (st : St) :
    Except (PyError × St) St :=
  match input_image_setup (some f) with
  | Except.error e => Except.error (e, st)
  | Except.ok image_data =>
    let st1 := if btns.scene then sceneBranch env image_data st else st
    let st2 := if btns.ocr then ocrBranch env f.bytes st1 else st1
    if btns.tts then ttsBranch env f.bytes st2 else Except.ok st2

/-- The `try`/`except` of app.py lines 150-190: a raise from the body is
caught and surfaced as the unexpected-error message. -/
def handleBody (env : Env) (f : UploadedFile) (btns : Buttons) (st : St) : St :=
  match tryBody env f btns st with
  | Except.ok st2 => st2
  | Except.error (e, st2) =>
      emit st2 (UIEvent.error ("An unexpected error occurred: " ++ pyMsg e))

/-- `main` (app.py lines 123-200) from an arbitrary starting state: page and
sidebar chrome, the upload widget over a candidate file, the per-upload block
(image preview, feature buttons, guarded feature body) when a file passed the
widget, and the footer. -/
def mainFrom (env : Env) (candidate : Option UploadedFile) (btns : Buttons)
    (st0 : St) : St :=
  let st := setup_sidebar env (setup_page st0)
  let st1 := emit st (UIEvent.markdown ("Upload an Image"))
  let st2 := emit st1 (UIEvent.fileUploader ("Drag and drop or browse an image (JPG, JPEG, PNG)"))
  let st3 :=
    match file_uploader allowedTypes candidate with
    | none => st2
    | some f =>
      let s := emit st2 (UIEvent.image ("Uploaded Image"))
      let s1 := emit s (UIEvent.markdown ("Features:"))
      let s2 := emit (emit (emit s1 (UIEvent.button ("Describe Image")))
        (UIEvent.button ("Extract Text"))) (UIEvent.button ("Text-to-Speech"))
      handleBody env f btns s2
  emit st3 (UIEvent.markdown ("footer"))

namespace App

/-- One full page run from the empty state. -/
def main (env : Env) (candidate : Option UploadedFile) (btns : Buttons) : St :=
  mainFrom env candidate btns initSt

end App

/-- The state delivered by a fallible block, whether it returned or raised. -/
def exState (r : Except (PyError × St) St) : St :=
  match r with
  | Except.ok s => s
  | Except.error es => es.2

/-- Interaction where every external call succeeds. -/
def envOk : Env :=
  Env.mk (Except.ok ("HELLO")) (Except.ok ("A busy street.")) TtsOutcome.ok (Except.ok ())

/-- Interaction where the generative-model call raises. -/
def envGenFail : Env :=
  Env.mk (Except.ok ("")) (Except.error ("quota exceeded")) TtsOutcome.ok (Except.ok ())

/-- Interaction where the generative-model call succeeds with an empty response
and the OCR call succeeds with no recognised text. -/
def envGenEmpty : Env :=
  Env.mk (Except.ok ("")) (Except.ok ("")) TtsOutcome.ok (Except.ok ())

/-- Interaction where the OCR engine raises. -/
def envOcrFail : Env :=
  Env.mk (Except.error ("tesseract is not installed")) (Except.ok ("")) TtsOutcome.ok (Except.ok ())

/-- Interaction where the network call inside `tts.save` raises, after the
temp file was already created. -/
def envTtsFail : Env :=
  Env.mk (Except.ok ("HELLO")) (Except.ok ("A busy street.")) (TtsOutcome.saveFail ("connection error")) (Except.ok ())

/-- A candidate upload of an unsupported type. -/
def gifFile : UploadedFile :=
  UploadedFile.mk ("pic.gif") ("gif") ("image/gif") [71, 73, 70]

/-! Helper lemmas: the chrome primitives touch neither the call trace nor the
disk, and every operation only ever appends to the list of temp files. -/

theorem emit_files (st : St) (e : UIEvent) : (emit st e).files = st.files := rfl

theorem emit_calls (st : St) (e : UIEvent) : (emit st e).calls = st.calls := rfl

theorem emit_events (st : St) (e : UIEvent) :
    (emit st e).events = st.events ++ [e] := rfl

theorem recordCall_files (st : St) (c : AdapterCall) :
    (recordCall st c).files = st.files := rfl

theorem recordCall_calls (st : St) (c : AdapterCall) :
    (recordCall st c).calls = st.calls ++ [c] := rfl

theorem extract_files (env : Env) (i : List Nat) (st : St) :
    (extract_text_from_image env i st).2.files = st.files := by
  unfold extract_text_from_image
  cases h : env.ocr <;> rfl

theorem tts_files (env : Env) (t : String) (st : St) :
    st.files <+: (text_to_speech env t st).2.files := by
  unfold text_to_speech
  cases h : env.tts
  · exact List.prefix_append _ _
  · exact List.prefix_rfl
  · exact List.prefix_append _ _

theorem gsd_files (env : Env) (p : String) (d : List ImagePart) (st : St) :
    st.files <+: (generate_scene_description env p d st).2.files := by
  unfold generate_scene_description
  cases h : env.gen with
  | error e => exact List.prefix_rfl
  | ok out =>
    by_cases ho : out = ""
    · simp only [ho, ne_eq, not_true_eq_false, if_false]
      exact List.prefix_rfl
    · simp only [ne_eq, ho, not_false_eq_true, if_true]
      exact tts_files env out (recordCall st AdapterCall.gen)

theorem sceneBranch_files (env : Env) (d : List ImagePart) (st : St) :
    st.files <+: (sceneBranch env d st).files := by
  unfold sceneBranch
  dsimp only
  split <;> simp only [emit_files] <;>
    exact gsd_files env scene_prompt d
      (emit st (UIEvent.spinner ("Generating scene description...")))

theorem ocrBranch_files (env : Env) (i : List Nat) (st : St) :
    (ocrBranch env i st).files = st.files := by
  unfold ocrBranch
  simp only [emit_files]
  exact extract_files env i (emit st (UIEvent.spinner ("Extracting text from the image...")))

theorem ttsBranch_files (env : Env) (i : List Nat) (st : St) :
    st.files <+: (exState (ttsBranch env i st)).files := by
  unfold ttsBranch
  dsimp only
  have hx : (extract_text_from_image env i
      (emit st (UIEvent.spinner ("Converting text to speech...")))).2.files = st.files :=
    extract_files env i _
  split
  · split <;> simp only [exState, emit_files] <;>
      exact (hx ▸ tts_files env _ _ : st.files <+: _)
  · simp only [exState, emit_files, hx]
    exact List.prefix_rfl

theorem tryBody_files (env : Env) (f : UploadedFile) (btns : Buttons) (st : St) :
    st.files <+: (exState (tryBody env f btns st)).files := by
  unfold tryBody input_image_setup
  dsimp only
  have h1 : st.files <+:
      (if btns.scene = true then sceneBranch env [ImagePart.mk f.mime f.bytes] st else st).files := by
    cases hs : btns.scene
    · simp
    · simp only [if_pos]
      exact sceneBranch_files env _ st
  have h2 : st.files <+:
      (if btns.ocr = true then
        ocrBranch env f.bytes
          (if btns.scene = true then sceneBranch env [ImagePart.mk f.mime f.bytes] st else st)
      else
        (if btns.scene = true then sceneBranch env [ImagePart.mk f.mime f.bytes] st else st)).files := by
    cases ho : btns.ocr
    · simpa using h1
    · simp only [if_pos]
      rw [ocrBranch_files]
      exact h1
  cases ht : btns.tts
  · simpa [exState] using h2
  · simp only [if_pos]
    exact h2.trans (ttsBranch_files env f.bytes _)

theorem handleBody_files (env : Env) (f : UploadedFile) (btns : Buttons) (st : St) :
    st.files <+: (handleBody env f btns st).files := by
  unfold handleBody
  have h := tryBody_files env f btns st
  cases htb : tryBody env f btns st with
  | ok s =>
    rw [htb] at h
    exact h
  | error es =>
    rw [htb] at h
    simp only [emit_files]
    exact h

theorem chrome_files (env : Env) (st : St) :
    (setup_sidebar env (setup_page st)).files = st.files := by
  unfold setup_sidebar setup_page
  dsimp only
  cases h : env.logo <;> rfl

theorem chrome_calls (env : Env) (st : St) :
    (setup_sidebar env (setup_page st)).calls = st.calls := by
  unfold setup_sidebar setup_page
  dsimp only
  cases h : env.logo <;> rfl

theorem mainFrom_files (env : Env) (cand : Option UploadedFile) (btns : Buttons) (st : St) :
    st.files <+: (mainFrom env cand btns st).files := by
  unfold mainFrom
  dsimp only
  cases hu : file_uploader allowedTypes cand
  · simp only [emit_files, chrome_files]
    exact List.prefix_rfl
  · simp only [emit_files]
    refine List.IsPrefix.trans ?_ (handleBody_files env _ btns _)
    simp only [emit_files, chrome_files]
    exact List.prefix_rfl

/-- C1: on any failure of the external generative-model call,
`generate_scene_description` returns a null description and a null audio path,
surfaces the error to the user as an `st.error` message, and returns normally
(the exception never propagates past the function). -/
theorem claim_C1 (env : Env) (p : String) (d : List ImagePart) (st : St) (e : String)
    (h : env.gen = Except.error e) :
    generate_scene_description env p d st =
      ((none, none),
        emit (recordCall st AdapterCall.gen)
          (UIEvent.error ("Scene description generation error: " ++ e))) := by
  unfold generate_scene_description
  rw [h]

/-- Witness for C1 at a concrete failing interaction. -/
theorem claim_C1_witness :
    generate_scene_description envGenFail ("p") [] initSt =
      ((none, none),
        emit (recordCall initSt AdapterCall.gen)
          (UIEvent.error ("Scene description generation error: " ++ "quota exceeded"))) :=
  claim_C1 envGenFail ("p") [] initSt ("quota exceeded") rfl

/-- C2: on a successful generative-model call whose textual response is empty,
`generate_scene_description` returns the sentinel "No description generated."
instead of the empty response, with no audio path. -/
theorem claim_C2 (env : Env) (p : String) (d : List ImagePart) (st : St)
    (h : env.gen = Except.ok ("")) :
    (generate_scene_description env p d st).1 =
      (some ("No description generated."), none) := by
  unfold generate_scene_description
  rw [h]
  simp

/-- Witness for C2 at a concrete empty-response interaction. -/
theorem claim_C2_witness :
    (generate_scene_description envGenEmpty ("p") [] initSt).1 =
      (some ("No description generated."), none) :=
  claim_C2 envGenEmpty ("p") [] initSt rfl

/-- C3: when the OCR engine call raises, `extract_text_from_image` returns the
empty string, shows the error as a user-visible `st.error` message, and returns
normally (nothing propagates past the function). -/
theorem claim_C3 (env : Env) (i : List Nat) (st : St) (e : String)
    (h : env.ocr = Except.error e) :
    extract_text_from_image env i st =
      ("", emit (recordCall st AdapterCall.ocr)
        (UIEvent.error ("Text extraction error: " ++ e))) := by
  unfold extract_text_from_image
  rw [h]

/-- Witness for C3 at a concrete failing interaction. -/
theorem claim_C3_witness :
    extract_text_from_image envOcrFail [] initSt =
      ("", emit (recordCall initSt AdapterCall.ocr)
        (UIEvent.error ("Text extraction error: " ++ "tesseract is not installed"))) :=
  claim_C3 envOcrFail [] initSt ("tesseract is not installed") rfl

/-- C4: in the Text-to-Speech button handler, when OCR yields the empty
string the handler returns normally having shown the no-text warning, the
only adapter recorded is the OCR call, and the speech synthesiser is never
invoked (the `tts` call is in the final trace only if it already was in the
starting one). -/
theorem claim_C4 (env : Env) (i : List Nat) (st : St) (h : env.ocr = Except.ok ("")) :
    ttsBranch env i st =
      Except.ok (emit (recordCall (emit st (UIEvent.spinner ("Converting text to speech...")))
        AdapterCall.ocr) (UIEvent.warning ("No text found to convert."))) ∧
    ∀ s, ttsBranch env i st = Except.ok s →
      (AdapterCall.tts ∈ s.calls ↔ AdapterCall.tts ∈ st.calls) ∧
      UIEvent.warning ("No text found to convert.") ∈ s.events := by
  have h1 : ttsBranch env i st =
      Except.ok (emit (recordCall (emit st (UIEvent.spinner ("Converting text to speech...")))
        AdapterCall.ocr) (UIEvent.warning ("No text found to convert."))) := by
    unfold ttsBranch
    dsimp only
    unfold extract_text_from_image
    rw [h]
    rfl
  refine ⟨h1, ?_⟩
  intro s hs
  rw [h1] at hs
  injection hs with h2
  subst h2
  constructor
  · simp [emit, recordCall]
  · simp [emit, recordCall]

/-- Witness for C4 at a concrete no-text interaction. -/
theorem claim_C4_witness :
    ttsBranch envGenEmpty [] initSt =
      Except.ok (emit (recordCall (emit initSt (UIEvent.spinner ("Converting text to speech...")))
        AdapterCall.ocr) (UIEvent.warning ("No text found to convert."))) ∧
    ∀ s, ttsBranch envGenEmpty [] initSt = Except.ok s →
      (AdapterCall.tts ∈ s.calls ↔ AdapterCall.tts ∈ initSt.calls) ∧
      UIEvent.warning ("No text found to convert.") ∈ s.events :=
  claim_C4 envGenEmpty [] initSt rfl

/-- C5: with the synthesis service up, each call to `text_to_speech` allocates
a fresh temporary file and returns its path, so synthesising the same text
twice yields two distinct paths, both existing afterwards: nothing is cached
or reused across calls. -/
theorem claim_C5 (env : Env) (t : String) (st : St) (h : env.tts = TtsOutcome.ok) :
    (text_to_speech env t st).1 = some st.nextTmp ∧
    (text_to_speech env t (text_to_speech env t st).2).1 = some (st.nextTmp + 1) ∧
    (text_to_speech env t st).1 ≠ (text_to_speech env t (text_to_speech env t st).2).1 ∧
    st.nextTmp ∈ (text_to_speech env t (text_to_speech env t st).2).2.files ∧
    st.nextTmp + 1 ∈ (text_to_speech env t (text_to_speech env t st).2).2.files := by
  unfold text_to_speech
  rw [h]
  dsimp only [recordCall]
  refine ⟨rfl, rfl, by simp, by simp, by simp⟩

/-- Witness for C5: synthesising "hello" twice from the empty state. -/
theorem claim_C5_witness :
    (text_to_speech envOk ("hello") initSt).1 = some initSt.nextTmp ∧
    (text_to_speech envOk ("hello") (text_to_speech envOk ("hello") initSt).2).1 =
      some (initSt.nextTmp + 1) ∧
    (text_to_speech envOk ("hello") initSt).1 ≠
      (text_to_speech envOk ("hello") (text_to_speech envOk ("hello") initSt).2).1 ∧
    initSt.nextTmp ∈ (text_to_speech envOk ("hello") (text_to_speech envOk ("hello") initSt).2).2.files ∧
    initSt.nextTmp + 1 ∈ (text_to_speech envOk ("hello") (text_to_speech envOk ("hello") initSt).2).2.files :=
  claim_C5 envOk ("hello") initSt rfl

/-- C6: with the synthesis service up, `text_to_speech` leaves its fresh
temporary file on disk after returning (the disk list gains exactly that
file), and no part of the page ever removes a temp file: the disk list at
the start of any full page run is a prefix of the disk list at its end. -/
theorem claim_C6 (env : Env) (t : String) (cand : Option UploadedFile)
    (btns : Buttons) (st : St) (h : env.tts = TtsOutcome.ok) :
    (text_to_speech env t st).2.files = st.files ++ [st.nextTmp] ∧
    st.nextTmp ∈ (text_to_speech env t st).2.files ∧
    st.files <+: (text_to_speech env t st).2.files ∧
    st.files <+: (mainFrom env cand btns st).files := by
  refine ⟨?_, ?_, tts_files env t st, mainFrom_files env cand btns st⟩
  · unfold text_to_speech
    rw [h]
    rfl
  · unfold text_to_speech
    rw [h]
    simp [recordCall]

/-- Witness for C6 at a concrete synthesis and page run. -/
theorem claim_C6_witness :
    (text_to_speech envOk ("hi") initSt).2.files = initSt.files ++ [initSt.nextTmp] ∧
    initSt.nextTmp ∈ (text_to_speech envOk ("hi") initSt).2.files ∧
    initSt.files <+: (text_to_speech envOk ("hi") initSt).2.files ∧
    initSt.files <+: (mainFrom envOk none (Buttons.mk false false false) initSt).files :=
  claim_C6 envOk ("hi") none (Buttons.mk false false false) initSt rfl

/-- C7: with no uploaded file, the page run is identical whatever buttons are
pressed (no result panel changes), no adapter is ever called, and marshalling
the missing upload raises `FileNotFoundError("No file uploaded.")` before any
adapter could be reached. -/
theorem claim_C7 (env : Env) (btns : Buttons) (st : St) :
    mainFrom env none btns st = mainFrom env none (Buttons.mk false false false) st ∧
    (mainFrom env none btns st).calls = st.calls ∧
    input_image_setup none = Except.error (PyError.fileNotFound ("No file uploaded.")) := by
  refine ⟨rfl, ?_, rfl⟩
  unfold mainFrom
  dsimp only
  simp only [file_uploader, emit_calls]
  exact chrome_calls env st

/-- C8: on any failure of the speech-synthesis call — whether the `gTTS`
constructor raises before the temp file exists or `save` raises after it was
created — `text_to_speech` returns a null path and surfaces the error as an
`st.error` message, returning normally instead of raising. -/
theorem claim_C8 (env : Env) (t : String) (st : St) (e : String)
    (h : env.tts = TtsOutcome.ctorFail e ∨ env.tts = TtsOutcome.saveFail e) :
    (text_to_speech env t st).1 = none ∧
    (text_to_speech env t st).2.events =
      st.events ++ [UIEvent.error ("Text-to-speech conversion error: " ++ e)] := by
  cases h with
  | inl h =>
    unfold text_to_speech
    rw [h]
    exact ⟨rfl, rfl⟩
  | inr h =>
    unfold text_to_speech
    rw [h]
    exact ⟨rfl, rfl⟩

/-- Witness for C8 at a concrete synthesis whose network save raises. -/
theorem claim_C8_witness :
    (text_to_speech envTtsFail ("hello") initSt).1 = none ∧
    (text_to_speech envTtsFail ("hello") initSt).2.events =
      initSt.events ++ [UIEvent.error ("Text-to-speech conversion error: " ++ "connection error")] :=
  claim_C8 envTtsFail ("hello") initSt ("connection error") (Or.inr rfl)

/-- C9: a candidate upload whose type is not jpg, jpeg or png is rejected by
the upload widget itself, and the page run reaches no adapter: the call trace
is unchanged. -/
theorem claim_C9 (env : Env) (f : UploadedFile) (btns : Buttons) (st : St)
    (h : f.ext ∉ allowedTypes) :
    file_uploader allowedTypes (some f) = none ∧
    (mainFrom env (some f) btns st).calls = st.calls := by
  have hu : file_uploader allowedTypes (some f) = none := by
    simp only [file_uploader]
    rw [if_neg h]
  refine ⟨hu, ?_⟩
  unfold mainFrom
  dsimp only
  rw [hu]
  simp only [emit_calls]
  exact chrome_calls env st

/-- Witness for C9 at a concrete gif upload with all three buttons pressed. -/
theorem claim_C9_witness :
    file_uploader allowedTypes (some gifFile) = none ∧
    (mainFrom envOk (some gifFile) (Buttons.mk true true true) initSt).calls = initSt.calls :=
  claim_C9 envOk gifFile (Buttons.mk true true true) initSt (by decide)

/-- C10: when the model response is empty, `generate_scene_description`
returns the sentinel with a null audio path and its state change is exactly
the recorded model call, so the speech synthesiser is not invoked; and for
any interaction, a non-null audio path can only come from a non-empty model
response. -/
theorem claim_C10 (env : Env) (p : String) (d : List ImagePart) (st : St)
    (h : env.gen = Except.ok ("")) :
    generate_scene_description env p d st =
      ((some ("No description generated."), none), recordCall st AdapterCall.gen) ∧
    (AdapterCall.tts ∈ (generate_scene_description env p d st).2.calls ↔
      AdapterCall.tts ∈ st.calls) ∧
    (∀ env2 : Env, ((generate_scene_description env2 p d st).1).2 ≠ none →
      ∃ out, env2.gen = Except.ok out ∧ out ≠ "") := by
  have h1 : generate_scene_description env p d st =
      ((some ("No description generated."), none), recordCall st AdapterCall.gen) := by
    unfold generate_scene_description
    rw [h]
    simp
  refine ⟨h1, ?_, ?_⟩
  · rw [h1]
    simp [recordCall]
  · intro env2 hne
    cases hg : env2.gen with
    | error e =>
      exfalso
      apply hne
      unfold generate_scene_description
      rw [hg]
    | ok out =>
      refine ⟨out, rfl, ?_⟩
      intro ho
      apply hne
      unfold generate_scene_description
      rw [hg, ho]
      simp

/-- Witness for C10 at a concrete empty-response interaction. -/
theorem claim_C10_witness :
    generate_scene_description envGenEmpty ("p") [] initSt =
      ((some ("No description generated."), none), recordCall initSt AdapterCall.gen) ∧
    (AdapterCall.tts ∈ (generate_scene_description envGenEmpty ("p") [] initSt).2.calls ↔
      AdapterCall.tts ∈ initSt.calls) ∧
    (∀ env2 : Env, ((generate_scene_description env2 ("p") [] initSt).1).2 ≠ none →
      ∃ out, env2.gen = Except.ok out ∧ out ≠ "") :=
  claim_C10 envGenEmpty ("p") [] initSt rfl
